import Mathlib

/-!
Shallow embedding of `src/dimse/wadoRs.ts` from the dicomweb-proxy
repository: the WADO-RS retrieve pipeline (cache consistency check,
fetch trigger, per-object transcoding, JPEG rendering, multipart
assembly).

Buffers are modelled as lists of byte values (`List Nat`); the
filesystem is a static snapshot mapping paths to file contents and
directory listings; external collaborators (config, metadata query,
fetch orchestrator, transcoder, the `dcmj2pnm` tool, the DICOM parser)
are fields of an environment record, so every theorem is quantified
over their behaviour.
-/

namespace WadoRs

/-- A byte buffer (Node `Buffer`), modelled as a list of byte values. -/
abbrev Buffer := List Nat

/-- `Buffer.from(string)`: ASCII bytes of a string. -/
def bytesOfString (s : String) : Buffer := s.data.map Char.toNat

/-- The CRLF separator, `const term = '\r\n'` in the source. -/
def term : String := "\r\n"

/-- An ASCII single-quote character, used inside the multipart content type. -/
def squote : String := (Char.ofNat 39).toString

/-- A static filesystem snapshot: which paths are files (with content)
and which are directories (with a `readdir` listing). -/
structure FS where
  files : String → Option Buffer
  dirs : String → Option (List String)

/-- `fileExists` from `utils/fileHelper`: true when the path exists,
whether as a file or as a directory. -/
def fileExists (fs : FS) (p : String) : Bool :=
  (fs.files p).isSome || (fs.dirs p).isSome

/-- `fs.readFile`: returns the file bytes, errors when the path is not
a readable file (missing, or a directory). -/
def readFile (fs : FS) (p : String) : Except String Buffer :=
  match fs.files p with
  | some b => Except.ok b
  | none => Except.error ("read failed: " ++ p)

/-- `path.join(a, b)` for the plain UID path segments used here. -/
def pathJoin (a b : String) : String := a ++ "/" ++ b

/-- `QUERY_LEVEL` from `dimse/querLevel`. -/
inductive QUERY_LEVEL
  | STUDY
  | SERIES
  | IMAGE
deriving DecidableEq, Repr

/-- `DataFormat` from the source. -/
inductive DataFormat
  | pixelData
  | bulkData
  | rendered
  | thumbnail
deriving DecidableEq, Repr

/-- One record of the merged IMAGE-level metadata-query result
(`QidoResponse`): `sop` is `Value[0]` of tag `00080018` when that tag
is present, `none` when the record carries no SOPInstanceUID. -/
structure QidoItem where
  sop : Option String
deriving DecidableEq, Repr

/-- The contract of `dicomParser.parseDicom`: the underlying byte array
and, when present, the `(dataOffset, length)` recorded for the
Pixel Data element `x7fe00010`. -/
structure ParseResult where
  byteArray : Buffer
  pixelDataElement : Option (Nat × Nat)

/-- Outcome of an external side-effecting call: success with the
resulting filesystem, or an error. -/
inductive ExecResult
  | ok (fs : FS)
  | err (e : String)

/-- The environment: configuration values, the filesystem snapshot, the
merged metadata-query result, and the external collaborators. -/
structure Env where
  storagePath : String
  mimetype : String
  xtransfer : String
  fs : FS
  qido : List QidoItem
  fetch : String → String → String → QUERY_LEVEL → FS
  compress : String → String → Option String → FS → ExecResult
  dcmj2pnm : List String → FS → ExecResult
  parseDicom : Buffer → Except String ParseResult

/-- Arguments of the first `dcmj2pnm` invocation in `convertToJpeg`:
single frame, output path `filepath + ".jpg"`. -/
def jpegArgsFirst (filepath : String) (asThumbnail : Bool) : List String :=
  ["+oj", "+Jq", if asThumbnail then "10" else "100", filepath, filepath ++ ".jpg"]

/-- Arguments of the retry `dcmj2pnm` invocation in `convertToJpeg`:
all frames (`+Fa`), output path `filepath` itself. -/
def jpegArgsRetry (filepath : String) (asThumbnail : Bool) : List String :=
  ["+oj", "+Jq", if asThumbnail then "10" else "100", "+Fa", filepath, filepath]

/-- The output-probing tail of `convertToJpeg`: look for
`filepath + ".jpg"`, then `filepath + ".0.jpg"`, return the bytes of the
first that exists, and `none` (absent) when neither exists. -/
def probeJpeg (fs : FS) (filepath : String) : Except String (FS × Option Buffer) :=
  if fileExists fs (filepath ++ ".jpg") then
    (readFile fs (filepath ++ ".jpg")).map (fun b => (fs, some b))
  else if fileExists fs (filepath ++ ".0.jpg") then
    (readFile fs (filepath ++ ".0.jpg")).map (fun b => (fs, some b))
  else Except.ok (fs, none)

/-- `convertToJpeg` from the source: try the single-frame invocation,
on failure retry once with the all-frames flag, propagate the second
failure, then probe the two output-naming conventions. -/
def convertToJpeg (env : Env) (fs : FS) (filepath : String) (asThumbnail : Bool) :
    Except String (FS × Option Buffer) :=
  match env.dcmj2pnm (jpegArgsFirst filepath asThumbnail) fs with
  | ExecResult.ok fs1 => probeJpeg fs1 filepath
  | ExecResult.err _ =>
    match env.dcmj2pnm (jpegArgsRetry filepath asThumbnail) fs with
    | ExecResult.ok fs1 => probeJpeg fs1 filepath
    | ExecResult.err e => Except.error e

/-- The filesystem after the `compressFile` call in `addFileToBuffer`:
a compression failure is caught and logged, leaving the filesystem
unchanged. -/
def fsAfterCompress (env : Env) (fs : FS) (filepath pathname : String)
    (ts : Option String) : FS :=
  match env.compress filepath pathname ts fs with
  | ExecResult.ok fs1 => fs1
  | ExecResult.err _ => fs

/-- `Buffer.concat` over a list that may contain `undefined` entries:
Node throws a TypeError on the first non-Buffer entry. -/
def bufferConcat (parts : List (Option Buffer)) : Except String Buffer :=
  match parts with
  | [] => Except.ok []
  | none :: _ => Except.error "TypeError: list argument must be an instance of Buffer"
  | some b :: rest => (bufferConcat rest).map (fun r => b ++ r)

/-- `Buffer.from(arrayBuffer, offset, length)`: the exact subrange,
a RangeError when the subrange overruns the underlying buffer. -/
def sliceBuffer (b : Buffer) (off len : Nat) : Except String Buffer :=
  if off + len ≤ b.length then Except.ok ((b.drop off).take len)
  else Except.error "RangeError: offset or length out of bounds"

/-- `addFileToBuffer` from the source: compress (non-fatally), read the
file, then build `contentTypeLine ++ CRLF ++ payload ++ CRLF` according
to the requested data format. -/
def addFileToBuffer (env : Env) (fs : FS) (pathname filename : String)
    (dataFormat : Option DataFormat) : Except String Buffer :=
  let filepath := pathJoin pathname filename
  let transferSyntax : Option String :=
    if dataFormat.isSome then some "1.2.840.10008.1.2" else none
  let fs1 := fsAfterCompress env fs filepath pathname transferSyntax
  match readFile fs1 filepath with
  | Except.error e => Except.error e
  | Except.ok data =>
    match dataFormat with
    | some DataFormat.bulkData =>
      match env.parseDicom data with
      | Except.error e => Except.error e
      | Except.ok pr =>
        match pr.pixelDataElement with
        | none => Except.error "TypeError: cannot read dataOffset of undefined"
        | some (off, len) =>
          match sliceBuffer pr.byteArray off len with
          | Except.error e => Except.error e
          | Except.ok rd =>
            bufferConcat [some (bytesOfString ("Content-Type:application/octet-stream;" ++ term)),
              some (bytesOfString term), some rd, some (bytesOfString term)]
    | some DataFormat.pixelData =>
      match env.parseDicom data with
      | Except.error e => Except.error e
      | Except.ok pr =>
        match pr.pixelDataElement with
        | none => Except.error "TypeError: cannot read dataOffset of undefined"
        | some (off, len) =>
          match sliceBuffer pr.byteArray off len with
          | Except.error e => Except.error e
          | Except.ok rd =>
            bufferConcat [some (bytesOfString ("Content-Type:application/octet-stream;" ++ term)),
              some (bytesOfString term), some rd, some (bytesOfString term)]
    | some DataFormat.rendered =>
      match convertToJpeg env fs1 filepath false with
      | Except.error e => Except.error e
      | Except.ok (_, rd) =>
        bufferConcat [some (bytesOfString ("Content-Type:image/jpeg;" ++ term)),
          some (bytesOfString term), rd, some (bytesOfString term)]
    | _ =>
      bufferConcat [some (bytesOfString ("Content-Type:" ++ env.mimetype ++
          ";transfer-syntax:" ++ env.xtransfer ++ term)),
        some (bytesOfString term), some data, some (bytesOfString term)]

/-- The argument record of `doWadoRs`. -/
structure WadoRsArgs where
  studyInstanceUid : String
  seriesInstanceUid : Option String := none
  sopInstanceUid : Option String := none
  dataFormat : Option DataFormat := none
deriving DecidableEq, Repr

/-- The response record of `doWadoRs`. -/
structure WadoRsResponse where
  contentType : String
  buffer : Buffer
deriving DecidableEq, Repr

/-- One recorded invocation of `waitOrFetchData`. -/
structure FetchCall where
  studyUid : String
  seriesUid : String
  sopUid : String
  level : QUERY_LEVEL
deriving DecidableEq, Repr

/-- The query level chosen by `doWadoRs`: SERIES when a series UID is
given, STUDY otherwise (a SOP UID alone does not deepen the level). -/
def queryLevelOf (args : WadoRsArgs) : QUERY_LEVEL :=
  if args.seriesInstanceUid.isSome then QUERY_LEVEL.SERIES else QUERY_LEVEL.STUDY

/-- `studyPath = path.join(storagePath, studyInstanceUid)`. -/
def studyPathOf (env : Env) (args : WadoRsArgs) : String :=
  pathJoin env.storagePath args.studyInstanceUid

/-- The target `pathname`: the study directory, further joined with the
SOP instance UID when one is given. -/
def pathnameOf (env : Env) (args : WadoRsArgs) : String :=
  match args.sopInstanceUid with
  | some sop => pathJoin (studyPathOf env args) sop
  | none => studyPathOf env args

/-- `isDir`: starts true; when the target path exists it is replaced by
`stat.isDirectory()`, so a missing path counts as a directory scope. -/
def isDirOf (env : Env) (args : WadoRsArgs) : Bool :=
  if fileExists env.fs (pathnameOf env args) then (env.fs.dirs (pathnameOf env args)).isSome
  else true

/-- The instance UIDs recorded from the merged metadata-query result:
`Value[0]` of tag `00080018` for every record that carries it. -/
def expectedInstancesOf (qido : List QidoItem) : List String :=
  qido.filterMap (fun it => it.sop)

/-- `foundInstances`: populated only on the directory-scope branch. -/
def foundInstancesOf (env : Env) (args : WadoRsArgs) : List String :=
  if isDirOf env args then expectedInstancesOf env.qido else []

/-- The directory-scope cache check: for every metadata-query record,
the existence of `storageRoot/studyUid/<sop>` when the record carries a
SOPInstanceUID, vacuously `true` otherwise; folded with `&&` from
identity `true`. -/
def checkCacheDir (fs : FS) (studyPath : String) (qido : List QidoItem) : Bool :=
  (qido.map (fun it =>
      match it.sop with
      | some id => fileExists fs (pathJoin studyPath id)
      | none => true)).foldl (fun a b => a && b) true

/-- `useCache`: the directory-scope fold, or plain existence of the
target path on the single-object branch. -/
def useCacheOf (env : Env) (args : WadoRsArgs) : Bool :=
  if isDirOf env args then checkCacheDir env.fs (studyPathOf env args) env.qido
  else fileExists env.fs (pathnameOf env args)

/-- The `waitOrFetchData` invocations made by `doWadoRs`: exactly one,
with the full scope, when the cache check missed; none otherwise. -/
def fetchCallsOf (env : Env) (args : WadoRsArgs) : List FetchCall :=
  if useCacheOf env args then []
  else [⟨args.studyInstanceUid, args.seriesInstanceUid.getD "",
        args.sopInstanceUid.getD "", queryLevelOf args⟩]

/-- The filesystem after the conditional fetch. -/
def fsAfterFetchOf (env : Env) (args : WadoRsArgs) : FS :=
  if useCacheOf env args then env.fs
  else env.fetch args.studyInstanceUid (args.seriesInstanceUid.getD "")
    (args.sopInstanceUid.getD "") (queryLevelOf args)

/-- The render target of the thumbnail branch:
`path.join(pathname, foundInstances[0])` on a directory scope (no value
when `foundInstances` is empty, where `path.join` with `undefined`
throws), the target path itself otherwise. -/
def thumbTargetOf (env : Env) (args : WadoRsArgs) : Option String :=
  if isDirOf env args then
    (foundInstancesOf env args).head?.map (fun x => pathJoin (pathnameOf env args) x)
  else some (pathnameOf env args)

/-- The per-directory-entry transform inside `Promise.all`: entries in
`foundInstances` are transcoded, others resolve to `undefined`. -/
def wadoTransform (env : Env) (fs : FS) (pathname : String)
    (foundInstances : List String) (dataFormat : Option DataFormat)
    (file : String) : Except String (Option Buffer) :=
  if foundInstances.contains file then
    (addFileToBuffer env fs pathname file dataFormat).map (fun b => some b)
  else Except.ok none

/-- `Promise.all` rejection behaviour over the per-entry transforms:
the first rejection wins, otherwise all the resolved values. -/
def collectParts (rs : List (Except String (Option Buffer))) :
    Except String (List (Option Buffer)) :=
  match rs with
  | [] => Except.ok []
  | Except.error e :: _ => Except.error e
  | Except.ok b :: rest => (collectParts rest).map (fun l => b :: l)

/-- The multipart body: `--boundary CRLF` before every part, and the
closing `--boundary-- CRLF` after all parts. -/
def assemble (boundary : String) (parts : List Buffer) : Buffer :=
  parts.foldr (fun b acc => bytesOfString ("--" ++ boundary ++ term) ++ b ++ acc)
    (bytesOfString ("--" ++ boundary ++ "--" ++ term))

/-- The `type` parameter of the multipart content type, per the source's
sequence of conditionals. -/
def contentTypeOf (dataFormat : Option DataFormat) : String :=
  match dataFormat with
  | some DataFormat.rendered => "image/jpeg"
  | some DataFormat.bulkData => "application/octet-stream"
  | some DataFormat.pixelData => "application/octet-stream"
  | _ => "application/dicom"

/-- The full response content type:
`multipart/related;type='<T>';boundary=<studyUid>`. -/
def fullContentTypeOf (dataFormat : Option DataFormat) (boundary : String) : String :=
  "multipart/related;type=" ++ squote ++ contentTypeOf dataFormat ++ squote ++
    ";boundary=" ++ boundary

/-- The body of `doWadoRs` after the conditional fetch: the thumbnail
short-circuit, or enumerate–transform–assemble. -/
def doWadoRsBody (env : Env) (args : WadoRsArgs) : Except String WadoRsResponse :=
  let fs1 := fsAfterFetchOf env args
  let pathname := pathnameOf env args
  if args.dataFormat = some DataFormat.thumbnail then
    match thumbTargetOf env args with
    | none => Except.error "TypeError: path argument must be of type string"
    | some filePath =>
      match convertToJpeg env fs1 filePath true with
      | Except.error e => Except.error e
      | Except.ok (_, some buff) => Except.ok ⟨"image/jpeg", buff⟩
      | Except.ok (_, none) => Except.error "Failed to create thumbnail"
  else
    let buffersE : Except String (List (Option Buffer)) :=
      if isDirOf env args then
        match fs1.dirs pathname with
        | none => Except.error ("readdir failed: " ++ pathname)
        | some files =>
          collectParts (files.map (wadoTransform env fs1 pathname
            (foundInstancesOf env args) args.dataFormat))
      else
        (addFileToBuffer env fs1 (studyPathOf env args)
          (args.sopInstanceUid.getD "") args.dataFormat).map (fun b => [some b])
    match buffersE with
    | Except.error e => Except.error e
    | Except.ok buffers =>
      Except.ok ⟨fullContentTypeOf args.dataFormat args.studyInstanceUid,
        assemble args.studyInstanceUid (buffers.filterMap (fun x => x))⟩

/-- `doWadoRs`: the fetch-call trace paired with the response (or the
propagated error). -/
def doWadoRs (env : Env) (args : WadoRsArgs) :
    List FetchCall × Except String WadoRsResponse :=
  (fetchCallsOf env args, doWadoRsBody env args)

/-! ### Generic lemmas about the embedding -/

theorem foldl_and_eq_all (l : List Bool) (b : Bool) :
    l.foldl (fun a c => a && c) b = (b && l.all (fun x => x)) := by
  induction l generalizing b with
  | nil => simp
  | cons x xs ih => simp [ih, Bool.and_assoc]

/-! ### Concrete environment for the C1 witness -/

/-- Filesystem with study directory `/data/S1` holding only instance
file `I1`. -/
def fsC1 : FS where
  files := fun p => if p = "/data/S1/I1" then some [0] else none
  dirs := fun p => if p = "/data/S1" then some ["I1"] else none

/-- Environment whose metadata query expects instances `I1` and `I2`
for study `S1`, with only `I1` present on disk. -/
def envC1 : Env where
  storagePath := "/data"
  mimetype := "application/dicom"
  xtransfer := "1.2.840.10008.1.2.1"
  fs := fsC1
  qido := [⟨some "I1"⟩, ⟨some "I2"⟩]
  fetch := fun _ _ _ _ => fsC1
  compress := fun _ _ _ fs => ExecResult.ok fs
  dcmj2pnm := fun _ fs => ExecResult.ok fs
  parseDicom := fun _ => Except.error "not parsed"

/-- Study-scope request for `S1`. -/
def argsC1 : WadoRsArgs := { studyInstanceUid := "S1" }

/-- Claim C1: for a directory-scope request the cache-hit value is the
AND-fold (identity `true`) of the existence checks: the hit equals
`checkCacheDir`; with at least one expected instance whose file is
missing (all others present) the hit is `false`; and with an empty
expected-instance set the hit is `true`. -/
theorem checkCache_all_or_nothing (env : Env) (args : WadoRsArgs) :
    (isDirOf env args = true →
      useCacheOf env args = checkCacheDir env.fs (studyPathOf env args) env.qido)
    ∧ (∀ m, m ∈ expectedInstancesOf env.qido →
        fileExists env.fs (pathJoin (studyPathOf env args) m) = false →
        (∀ x, x ∈ expectedInstancesOf env.qido → x ≠ m →
          fileExists env.fs (pathJoin (studyPathOf env args) x) = true) →
        checkCacheDir env.fs (studyPathOf env args) env.qido = false)
    ∧ (expectedInstancesOf env.qido = [] →
        checkCacheDir env.fs (studyPathOf env args) env.qido = true) := by
  refine ⟨fun h => by simp [useCacheOf, h], ?_, ?_⟩
  · intro m hm hmiss _
    obtain ⟨it, hit, hsop⟩ := List.mem_filterMap.mp hm
    unfold checkCacheDir
    rw [foldl_and_eq_all, Bool.true_and]
    rw [List.all_eq_false]
    refine ⟨_, List.mem_map.mpr ⟨it, hit, rfl⟩, ?_⟩
    simp [hsop, hmiss]
  · intro hempty
    have hnone : ∀ it ∈ env.qido, it.sop = none := by
      intro it hit
      exact List.filterMap_eq_nil_iff.mp hempty it hit
    unfold checkCacheDir
    rw [foldl_and_eq_all, Bool.true_and]
    rw [List.all_eq_true]
    intro x hx
    obtain ⟨it, hit, rfl⟩ := List.mem_map.mp hx
    simp [hnone it hit]

/-- Witness for C1: in `envC1` the expected set is `[I1, I2]`, `I2`'s
file is missing while `I1`'s is present, and the cache check indeed
reports a miss. -/
theorem checkCache_all_or_nothing_witness :
    checkCacheDir envC1.fs (studyPathOf envC1 argsC1) envC1.qido = false :=
  (checkCache_all_or_nothing envC1 argsC1).2.1 "I2" (by decide) (by decide)
    (by decide)

/-! ### Concrete environment for the C2 scenario -/

/-- Filesystem with study directory `/data/S2` holding only instance
file `I1`. -/
def fsC2 : FS where
  files := fun p => if p = "/data/S2/I1" then some [0] else none
  dirs := fun p => if p = "/data/S2" then some ["I1"] else none

/-- Environment for study `S2`: metadata query expects `[I1, I2]`, only
`I1` exists on disk. -/
def envC2 : Env where
  storagePath := "/data"
  mimetype := "application/dicom"
  xtransfer := "1.2.840.10008.1.2.1"
  fs := fsC2
  qido := [⟨some "I1"⟩, ⟨some "I2"⟩]
  fetch := fun _ _ _ _ => fsC2
  compress := fun _ _ _ fs => ExecResult.ok fs
  dcmj2pnm := fun _ fs => ExecResult.ok fs
  parseDicom := fun _ => Except.error "not parsed"

/-- Directory (study-only) request for `S2`, no data format. -/
def argsC2 : WadoRsArgs := { studyInstanceUid := "S2" }

/-- Claim C2: the fetch orchestrator is invoked exactly once, with the
full scope `(studyUid, seriesUid or empty, sopUid or empty, queryLevel)`,
when and only when the cache check missed; in particular the `S2`
scenario (two expected instances, one missing, study scope) produces
exactly the call `(S2, empty, empty, STUDY)`. -/
theorem fetch_iff_cache_miss :
    (∀ env args, (doWadoRs env args).1 =
      if useCacheOf env args then []
      else [⟨args.studyInstanceUid, args.seriesInstanceUid.getD "",
            args.sopInstanceUid.getD "", queryLevelOf args⟩])
    ∧ useCacheOf envC2 argsC2 = false
    ∧ (doWadoRs envC2 argsC2).1 = [⟨"S2", "", "", QUERY_LEVEL.STUDY⟩] := by
  refine ⟨fun env args => rfl, by decide, by decide⟩

/-! ### C3: pixel-data extraction -/

/-- Claim C3: for `pixelData` or `bulkData`, the part's payload is the
exact subrange of the parsed byte buffer at the Pixel Data element's
recorded offset and length, and the part's content-type line names
`application/octet-stream`. -/
theorem pixelData_extraction (env : Env) (fs : FS) (pathname filename : String)
    (df : DataFormat) (data : Buffer) (pr : ParseResult) (off len : Nat)
    (hdf : df = DataFormat.pixelData ∨ df = DataFormat.bulkData)
    (hread : readFile (fsAfterCompress env fs (pathJoin pathname filename) pathname
        (some "1.2.840.10008.1.2")) (pathJoin pathname filename) = Except.ok data)
    (hparse : env.parseDicom data = Except.ok pr)
    (helem : pr.pixelDataElement = some (off, len))
    (hbound : off + len ≤ pr.byteArray.length) :
    addFileToBuffer env fs pathname filename (some df) =
      Except.ok (bytesOfString ("Content-Type:application/octet-stream;" ++ term) ++
        (bytesOfString term ++ (((pr.byteArray.drop off).take len) ++ bytesOfString term))) := by
  rcases hdf with rfl | rfl <;>
    simp [addFileToBuffer, hread, hparse, helem, sliceBuffer, hbound, bufferConcat,
      Except.map]

/-- Synthetic DICOM byte buffer for the C3 witness: the Pixel Data
element's recorded subrange is offset 2, length 3. -/
def dC3 : Buffer := [9, 9, 2, 3, 4, 9]

/-- Filesystem holding the synthetic object `/data/S3/I1`. -/
def fsC3 : FS where
  files := fun p => if p = "/data/S3/I1" then some dC3 else none
  dirs := fun p => if p = "/data/S3" then some ["I1"] else none

/-- Environment whose parser reports a Pixel Data element at offset 2,
length 3 of the input buffer. -/
def envC3 : Env where
  storagePath := "/data"
  mimetype := "application/dicom"
  xtransfer := "1.2.840.10008.1.2.1"
  fs := fsC3
  qido := [⟨some "I1"⟩]
  fetch := fun _ _ _ _ => fsC3
  compress := fun _ _ _ fs => ExecResult.ok fs
  dcmj2pnm := fun _ fs => ExecResult.ok fs
  parseDicom := fun b => Except.ok ⟨b, some (2, 3)⟩

/-- Witness for C3: on the synthetic object the `pixelData` payload is
exactly bytes `[2, 3, 4]`, the recorded subrange. -/
theorem pixelData_extraction_witness :
    addFileToBuffer envC3 fsC3 "/data/S3" "I1" (some DataFormat.pixelData) =
      Except.ok (bytesOfString ("Content-Type:application/octet-stream;" ++ term) ++
        (bytesOfString term ++ (([2, 3, 4] : Buffer) ++ bytesOfString term))) := by
  have h := pixelData_extraction envC3 fsC3 "/data/S3" "I1" DataFormat.pixelData
    dC3 ⟨dC3, some (2, 3)⟩ 2 3 (Or.inl rfl) rfl rfl rfl (by decide)
  exact h

/-! ### C4: multipart assembly and content type -/

/-- Claim C4: each non-absent part is prefixed with `--boundary CRLF`,
the buffer terminates with `--boundary-- CRLF` (zero parts yield exactly
the closing marker), the boundary is the study UID verbatim, and the
content type is `multipart/related;type='<T>';boundary=<studyUid>` with
`T` being `application/dicom` by default, `image/jpeg` for `rendered`
and `application/octet-stream` for `pixelData`/`bulkData`. -/
theorem multipart_boundary_correct :
    (∀ b, assemble b [] = bytesOfString ("--" ++ b ++ "--" ++ term))
    ∧ (∀ b p ps, assemble b (p :: ps) =
        bytesOfString ("--" ++ b ++ term) ++ p ++ assemble b ps)
    ∧ (∀ df b, fullContentTypeOf df b =
        "multipart/related;type=" ++ squote ++ contentTypeOf df ++ squote ++
          ";boundary=" ++ b)
    ∧ contentTypeOf none = "application/dicom"
    ∧ contentTypeOf (some DataFormat.rendered) = "image/jpeg"
    ∧ contentTypeOf (some DataFormat.pixelData) = "application/octet-stream"
    ∧ contentTypeOf (some DataFormat.bulkData) = "application/octet-stream"
    ∧ (∀ env args resp, args.dataFormat ≠ some DataFormat.thumbnail →
        doWadoRsBody env args = Except.ok resp →
        ∃ parts, resp.buffer = assemble args.studyInstanceUid parts ∧
          resp.contentType = fullContentTypeOf args.dataFormat args.studyInstanceUid) := by
  refine ⟨fun b => rfl, fun b p ps => rfl, fun df b => rfl, rfl, rfl, rfl, rfl, ?_⟩
  intro env args resp hdf hok
  simp only [doWadoRsBody] at hok
  rw [if_neg hdf] at hok
  split at hok
  · cases hok
  · rename_i buffers heq
    cases hok
    exact ⟨buffers.filterMap (fun x => x), rfl, rfl⟩

/-- Filesystem with study directory `/data/S4` holding instance `I1`
with content `[5]`. -/
def fsC4 : FS where
  files := fun p => if p = "/data/S4/I1" then some [5] else none
  dirs := fun p => if p = "/data/S4" then some ["I1"] else none

/-- Environment for study `S4`, fully cached. -/
def envC4 : Env where
  storagePath := "/data"
  mimetype := "application/dicom"
  xtransfer := "1.2.840.10008.1.2.1"
  fs := fsC4
  qido := [⟨some "I1"⟩]
  fetch := fun _ _ _ _ => fsC4
  compress := fun _ _ _ fs => ExecResult.ok fs
  dcmj2pnm := fun _ fs => ExecResult.ok fs
  parseDicom := fun _ => Except.error "not parsed"

/-- Directory (study-only) request for `S4`, default format. -/
def argsC4 : WadoRsArgs := { studyInstanceUid := "S4" }

/-- The one transformed part of the `S4` request. -/
def partC4 : Buffer :=
  bytesOfString ("Content-Type:application/dicom;transfer-syntax:1.2.840.10008.1.2.1" ++
      term) ++ (bytesOfString term ++ (([5] : Buffer) ++ (bytesOfString term ++ [])))

/-- Witness for C4: the concrete `S4` request succeeds, and its body and
content type have the assembled multipart shape. -/
theorem multipart_boundary_correct_witness :
    doWadoRsBody envC4 argsC4 =
      Except.ok ⟨fullContentTypeOf none "S4", assemble "S4" [partC4]⟩ ∧
    ∃ parts, (WadoRsResponse.mk (fullContentTypeOf none "S4")
        (assemble "S4" [partC4])).buffer = assemble "S4" parts ∧
      (WadoRsResponse.mk (fullContentTypeOf none "S4")
        (assemble "S4" [partC4])).contentType = fullContentTypeOf none "S4" := by
  have hok : doWadoRsBody envC4 argsC4 =
      Except.ok ⟨fullContentTypeOf none "S4", assemble "S4" [partC4]⟩ := rfl
  exact ⟨hok, multipart_boundary_correct.2.2.2.2.2.2.2 envC4 argsC4 _ (by decide) hok⟩

/-! ### C5: order preservation of the concurrent per-file transforms

`Promise.all` runs the per-entry transforms concurrently but stores
each result at the entry's index. We model an arbitrary completion
order as a schedule (a permutation of the indices): results arrive in
schedule order into a completion log, and the joined value reads the
log back in index order. -/

/-- The completion log: results arrive in schedule order, each tagged
with the index it belongs to. -/
def completionLog {β : Type} (f : Nat → β) (schedule : List Nat) : List (Nat × β) :=
  schedule.map (fun i => (i, f i))

/-- Read the completion log back in index order. -/
def gatherGo {β : Type} (log : List (Nat × β)) : List Nat → Option (List β)
  | [] => some []
  | i :: rest =>
    match log.find? (fun p => p.1 == i) with
    | none => none
    | some p => (gatherGo log rest).map (fun l => p.2 :: l)

/-- The joined value of `Promise.all` over `n` tasks completed in
`schedule` order. -/
def promiseAll {β : Type} (f : Nat → β) (n : Nat) (schedule : List Nat) :
    Option (List β) :=
  gatherGo (completionLog f schedule) (List.range n)

/-- The directory-scope transform stage of `doWadoRs` under an explicit
completion schedule. -/
def scheduledDirTransforms (env : Env) (fs : FS) (pathname : String)
    (foundInstances : List String) (df : Option DataFormat) (files : List String)
    (schedule : List Nat) : Option (List (Except String (Option Buffer))) :=
  promiseAll (fun i => wadoTransform env fs pathname foundInstances df (files.getD i ""))
    files.length schedule

theorem find_completionLog {β : Type} (f : Nat → β) (s : List Nat) (i : Nat) :
    (completionLog f s).find? (fun p => p.1 == i) =
      if i ∈ s then some (i, f i) else none := by
  induction s with
  | nil => simp [completionLog]
  | cons j rest ih =>
    have hcl : completionLog f (j :: rest) = (j, f j) :: completionLog f rest := rfl
    rw [hcl]
    by_cases hj : j = i
    · subst hj
      rw [List.find?_cons_of_pos _ (by simp)]
      simp
    · rw [List.find?_cons_of_neg _ (by simp [hj]), ih]
      simp [List.mem_cons, Ne.symm hj]

theorem gatherGo_all_mem {β : Type} (f : Nat → β) (s : List Nat) (l : List Nat)
    (h : ∀ i ∈ l, i ∈ s) :
    gatherGo (completionLog f s) l = some (l.map f) := by
  induction l with
  | nil => simp [gatherGo]
  | cons i rest ih =>
    have hi : i ∈ s := h i (by simp)
    rw [gatherGo, find_completionLog, if_pos hi,
      ih (fun j hj => h j (List.mem_cons_of_mem _ hj))]
    simp

theorem map_getD_range {α : Type} (l : List α) (d : α) :
    (List.range l.length).map (fun i => l.getD i d) = l := by
  induction l with
  | nil => simp
  | cons a t ih =>
    rw [List.length_cons, List.range_succ_eq_map, List.map_cons, List.map_map]
    have hc : ((fun i => (a :: t).getD i d) ∘ Nat.succ) = (fun i => t.getD i d) := by
      funext i
      simp [List.getD_cons_succ]
    rw [hc, ih]
    simp [List.getD_cons_zero]

/-- Claim C5: for any completion schedule that is a permutation of the
indices, the joined transform results equal the sequential in-order
map over the directory entries — output part order matches enumeration
order, not completion order. -/
theorem wado_order_preserving (env : Env) (fs : FS) (pathname : String)
    (found : List String) (df : Option DataFormat) (files : List String)
    (schedule : List Nat) (hperm : schedule.Perm (List.range files.length)) :
    scheduledDirTransforms env fs pathname found df files schedule =
      some (files.map (wadoTransform env fs pathname found df)) := by
  unfold scheduledDirTransforms promiseAll
  rw [gatherGo_all_mem _ _ _ (fun i hi => (hperm.mem_iff).mpr hi)]
  congr 1
  rw [show (fun i => wadoTransform env fs pathname found df (files.getD i "")) =
        (wadoTransform env fs pathname found df) ∘ (fun i => files.getD i "") from rfl,
    ← List.map_map, map_getD_range]

/-- Filesystem with study directory `/data/S5` holding entries `a`,
`b`, `c`. -/
def fsC5 : FS where
  files := fun p =>
    if p = "/data/S5/a" then some [1]
    else if p = "/data/S5/b" then some [2]
    else if p = "/data/S5/c" then some [3]
    else none
  dirs := fun p => if p = "/data/S5" then some ["a", "b", "c"] else none

/-- Environment for the C5 witness. -/
def envC5 : Env where
  storagePath := "/data"
  mimetype := "application/dicom"
  xtransfer := "1.2.840.10008.1.2.1"
  fs := fsC5
  qido := [⟨some "a"⟩, ⟨some "b"⟩, ⟨some "c"⟩]
  fetch := fun _ _ _ _ => fsC5
  compress := fun _ _ _ fs => ExecResult.ok fs
  dcmj2pnm := fun _ fs => ExecResult.ok fs
  parseDicom := fun _ => Except.error "not parsed"

/-- Witness for C5: entries `[a, b, c]` all expected, completion order
`[c, a, b]` (schedule `[2, 0, 1]`), output order still `[a, b, c]`. -/
theorem wado_order_preserving_witness :
    ([2, 0, 1] : List Nat).Perm (List.range (["a", "b", "c"] : List String).length) ∧
    scheduledDirTransforms envC5 fsC5 "/data/S5" ["a", "b", "c"] none
        ["a", "b", "c"] [2, 0, 1] =
      some ((["a", "b", "c"] : List String).map
        (wadoTransform envC5 fsC5 "/data/S5" ["a", "b", "c"] none)) :=
  ⟨by decide, wado_order_preserving envC5 fsC5 "/data/S5" ["a", "b", "c"] none
    ["a", "b", "c"] [2, 0, 1] (by decide)⟩

/-! ### C6: the JPEG renderer's retry policy -/

/-- Counterexample to claim C6 as stated: the retry does not target the
same output path as the first attempt — the first invocation's output
argument is `filepath + ".jpg"` while the retry's output argument is
`filepath` itself, and the two differ. -/
theorem convertToJpeg_retry_output_differs :
    (jpegArgsFirst "/data/S6/I1" false).getLast? = some "/data/S6/I1.jpg" ∧
    (jpegArgsRetry "/data/S6/I1" false).getLast? = some "/data/S6/I1" ∧
    ("/data/S6/I1.jpg" : String) ≠ "/data/S6/I1" :=
  ⟨rfl, rfl, by decide⟩

/-- Claim C6 amended: on a first-attempt failure exactly one retry is
made with the all-frames flag, whose output argument is `filepath`
itself (not the first attempt's `filepath + ".jpg"`); a second failure
propagates verbatim with no third attempt; after a successful attempt
the renderer probes `filepath + ".jpg"` then `filepath + ".0.jpg"`,
returns the bytes of the first that exists, and signals absent (without
raising) when neither exists; a renderer failing single-frame but
succeeding all-frames (writing `filepath + ".0.jpg"`) yields non-absent
output. -/
theorem convertToJpeg_retry_policy (env : Env) (fs : FS) (filepath : String)
    (thumb : Bool) :
    (∀ fs1, env.dcmj2pnm (jpegArgsFirst filepath thumb) fs = ExecResult.ok fs1 →
      convertToJpeg env fs filepath thumb = probeJpeg fs1 filepath)
    ∧ (∀ e1 fs1, env.dcmj2pnm (jpegArgsFirst filepath thumb) fs = ExecResult.err e1 →
        env.dcmj2pnm (jpegArgsRetry filepath thumb) fs = ExecResult.ok fs1 →
        convertToJpeg env fs filepath thumb = probeJpeg fs1 filepath)
    ∧ (∀ e1 e2, env.dcmj2pnm (jpegArgsFirst filepath thumb) fs = ExecResult.err e1 →
        env.dcmj2pnm (jpegArgsRetry filepath thumb) fs = ExecResult.err e2 →
        convertToJpeg env fs filepath thumb = Except.error e2)
    ∧ (∀ fs1 b, fs1.files (filepath ++ ".jpg") = some b →
        probeJpeg fs1 filepath = Except.ok (fs1, some b))
    ∧ (∀ fs1 b, fileExists fs1 (filepath ++ ".jpg") = false →
        fs1.files (filepath ++ ".0.jpg") = some b →
        probeJpeg fs1 filepath = Except.ok (fs1, some b))
    ∧ (∀ fs1, fileExists fs1 (filepath ++ ".jpg") = false →
        fileExists fs1 (filepath ++ ".0.jpg") = false →
        probeJpeg fs1 filepath = Except.ok (fs1, none))
    ∧ (∀ e1 fs1 b, env.dcmj2pnm (jpegArgsFirst filepath thumb) fs = ExecResult.err e1 →
        env.dcmj2pnm (jpegArgsRetry filepath thumb) fs = ExecResult.ok fs1 →
        fileExists fs1 (filepath ++ ".jpg") = false →
        fs1.files (filepath ++ ".0.jpg") = some b →
        convertToJpeg env fs filepath thumb = Except.ok (fs1, some b)) := by
  have hprobe1 : ∀ fs1 b, fs1.files (filepath ++ ".jpg") = some b →
      probeJpeg fs1 filepath = Except.ok (fs1, some b) := by
    intro fs1 b hb
    simp [probeJpeg, fileExists, readFile, hb, Except.map]
  have hprobe2 : ∀ fs1 b, fileExists fs1 (filepath ++ ".jpg") = false →
      fs1.files (filepath ++ ".0.jpg") = some b →
      probeJpeg fs1 filepath = Except.ok (fs1, some b) := by
    intro fs1 b hne hb
    simp [probeJpeg, hne, fileExists, readFile, hb, Except.map]
    simp [fileExists] at hne
    simp [hne.1, hne.2, hb, Except.map]
  have hprobe3 : ∀ fs1, fileExists fs1 (filepath ++ ".jpg") = false →
      fileExists fs1 (filepath ++ ".0.jpg") = false →
      probeJpeg fs1 filepath = Except.ok (fs1, none) := by
    intro fs1 hne1 hne2
    simp [probeJpeg, hne1, hne2]
  have hfirst : ∀ fs1, env.dcmj2pnm (jpegArgsFirst filepath thumb) fs = ExecResult.ok fs1 →
      convertToJpeg env fs filepath thumb = probeJpeg fs1 filepath := by
    intro fs1 h
    unfold convertToJpeg
    rw [h]
  have hretry : ∀ e1 fs1, env.dcmj2pnm (jpegArgsFirst filepath thumb) fs = ExecResult.err e1 →
      env.dcmj2pnm (jpegArgsRetry filepath thumb) fs = ExecResult.ok fs1 →
      convertToJpeg env fs filepath thumb = probeJpeg fs1 filepath := by
    intro e1 fs1 h1 h2
    unfold convertToJpeg
    rw [h1, h2]
  refine ⟨hfirst, hretry, ?_, hprobe1, hprobe2, hprobe3, ?_⟩
  · intro e1 e2 h1 h2
    unfold convertToJpeg
    rw [h1, h2]
  · intro e1 fs1 b h1 h2 hne hb
    rw [hretry e1 fs1 h1 h2, hprobe2 fs1 b hne hb]

/-- Empty filesystem before the C6 witness render. -/
def fs6a : FS where
  files := fun _ => none
  dirs := fun _ => none

/-- Filesystem after a successful all-frames conversion: the tool wrote
`/data/S6/I1.0.jpg`. -/
def fs6b : FS where
  files := fun p => if p = "/data/S6/I1.0.jpg" then some [7] else none
  dirs := fun _ => none

/-- Environment whose conversion tool fails single-frame invocations
and succeeds all-frames ones. -/
def envC6 : Env where
  storagePath := "/data"
  mimetype := "application/dicom"
  xtransfer := "1.2.840.10008.1.2.1"
  fs := fs6a
  qido := []
  fetch := fun _ _ _ _ => fs6a
  compress := fun _ _ _ fs => ExecResult.ok fs
  dcmj2pnm := fun args _ =>
    if args.contains "+Fa" then ExecResult.ok fs6b
    else ExecResult.err "single-frame conversion failed"
  parseDicom := fun _ => Except.error "not parsed"

/-- Witness for the amended C6: with a tool that fails single-frame and
succeeds all-frames, the renderer returns the bytes of
`filepath + ".0.jpg"` — non-absent output. -/
theorem convertToJpeg_retry_policy_witness :
    convertToJpeg envC6 fs6a "/data/S6/I1" false = Except.ok (fs6b, some [7]) :=
  (convertToJpeg_retry_policy envC6 fs6a "/data/S6/I1" false).2.2.2.2.2.2
    "single-frame conversion failed" fs6b [7] rfl rfl (by decide) rfl

/-! ### C7: thumbnail short-circuit -/

/-- Claim C7: a thumbnail request short-circuits before the multipart
assembler — renderer success returns a bare `image/jpeg` response with
the rendered bytes, renderer absence fails the whole request with the
thumbnail-creation error, and every successful thumbnail response has
content type `image/jpeg` (never a multipart content type). -/
theorem thumbnail_short_circuit (env : Env) (args : WadoRsArgs)
    (hdf : args.dataFormat = some DataFormat.thumbnail) :
    (∀ fp fs2 buff, thumbTargetOf env args = some fp →
      convertToJpeg env (fsAfterFetchOf env args) fp true = Except.ok (fs2, some buff) →
      doWadoRsBody env args = Except.ok ⟨"image/jpeg", buff⟩)
    ∧ (∀ fp fs2, thumbTargetOf env args = some fp →
      convertToJpeg env (fsAfterFetchOf env args) fp true = Except.ok (fs2, none) →
      doWadoRsBody env args = Except.error "Failed to create thumbnail")
    ∧ (∀ resp, doWadoRsBody env args = Except.ok resp →
      resp.contentType = "image/jpeg") := by
  have hbody : doWadoRsBody env args =
      (match thumbTargetOf env args with
       | none => Except.error "TypeError: path argument must be of type string"
       | some filePath =>
         match convertToJpeg env (fsAfterFetchOf env args) filePath true with
         | Except.error e => Except.error e
         | Except.ok (_, some buff) => Except.ok ⟨"image/jpeg", buff⟩
         | Except.ok (_, none) => Except.error "Failed to create thumbnail") := by
    simp only [doWadoRsBody]
    rw [if_pos hdf]
  refine ⟨?_, ?_, ?_⟩
  · intro fp fs2 buff htarget hconv
    rw [hbody]
    simp only [htarget, hconv]
  · intro fp fs2 htarget hconv
    rw [hbody]
    simp only [htarget, hconv]
  · intro resp hok
    rw [hbody] at hok
    split at hok
    · cases hok
    · split at hok
      · cases hok
      · cases hok
        rfl
      · cases hok

/-- Filesystem for the C7 witness: study directory `/data/S7` with
instance file `I1`. -/
def fsC7 : FS where
  files := fun p => if p = "/data/S7/I1" then some [1] else none
  dirs := fun p => if p = "/data/S7" then some ["I1"] else none

/-- Filesystem after the C7 conversion: the tool wrote
`/data/S7/I1.jpg`. -/
def fs7b : FS where
  files := fun p =>
    if p = "/data/S7/I1.jpg" then some [8]
    else if p = "/data/S7/I1" then some [1]
    else none
  dirs := fun p => if p = "/data/S7" then some ["I1"] else none

/-- Environment for the C7 witness: any conversion succeeds and writes
the single-frame output file. -/
def envC7 : Env where
  storagePath := "/data"
  mimetype := "application/dicom"
  xtransfer := "1.2.840.10008.1.2.1"
  fs := fsC7
  qido := [⟨some "I1"⟩]
  fetch := fun _ _ _ _ => fsC7
  compress := fun _ _ _ fs => ExecResult.ok fs
  dcmj2pnm := fun _ _ => ExecResult.ok fs7b
  parseDicom := fun _ => Except.error "not parsed"

/-- Thumbnail request for study `S7`. -/
def argsC7 : WadoRsArgs :=
  { studyInstanceUid := "S7", dataFormat := some DataFormat.thumbnail }

/-- Witness for C7: the concrete thumbnail request returns the bare
`image/jpeg` response with the rendered bytes. -/
theorem thumbnail_short_circuit_witness :
    doWadoRsBody envC7 argsC7 = Except.ok ⟨"image/jpeg", [8]⟩ :=
  (thumbnail_short_circuit envC7 argsC7 rfl).1 "/data/S7/I1" fs7b [8] rfl rfl

/-! ### C8: absent render under the `rendered` format -/

/-- Filesystem for the C8 environment: study directory `/data/S8` with
instance file `I1`; no JPEG output ever appears. -/
def fsC8 : FS where
  files := fun p => if p = "/data/S8/I1" then some [1] else none
  dirs := fun p => if p = "/data/S8" then some ["I1"] else none

/-- Environment for C8: the conversion tool reports success but writes
no recognizable output file, so the renderer yields absent. -/
def envC8 : Env where
  storagePath := "/data"
  mimetype := "application/dicom"
  xtransfer := "1.2.840.10008.1.2.1"
  fs := fsC8
  qido := [⟨some "I1"⟩]
  fetch := fun _ _ _ _ => fsC8
  compress := fun _ _ _ fs => ExecResult.ok fs
  dcmj2pnm := fun _ fs => ExecResult.ok fs
  parseDicom := fun _ => Except.error "not parsed"

/-- Rendered-format request for study `S8`. -/
def argsC8 : WadoRsArgs :=
  { studyInstanceUid := "S8", dataFormat := some DataFormat.rendered }

/-- Counterexample to claim C8 as stated: with an absent renderer
result under `rendered`, the transform does not yield a missing part —
it raises (the undefined payload reaches the buffer concatenation,
which throws), and the whole request fails instead of producing a
multipart with that part omitted. -/
theorem rendered_absent_raises_counterexample :
    addFileToBuffer envC8 fsC8 "/data/S8" "I1" (some DataFormat.rendered) =
      Except.error "TypeError: list argument must be an instance of Buffer" ∧
    doWadoRsBody envC8 argsC8 =
      Except.error "TypeError: list argument must be an instance of Buffer" :=
  ⟨rfl, rfl⟩

/-- Claim C8 amended: for every object transformed with `rendered`, an
absent renderer result is fatal after all — the undefined payload is
pushed into the buffer concatenation, which raises a TypeError that
fails the request (the omitted-part filtering applies only to directory
entries outside the expected-instance set), in contrast with the
thumbnail path's explicit thumbnail-creation error. -/
theorem rendered_absent_raises (env : Env) (fs : FS) (pathname filename : String)
    (data : Buffer) (fs2 : FS)
    (hread : readFile (fsAfterCompress env fs (pathJoin pathname filename) pathname
        (some "1.2.840.10008.1.2")) (pathJoin pathname filename) = Except.ok data)
    (hconv : convertToJpeg env (fsAfterCompress env fs (pathJoin pathname filename) pathname
        (some "1.2.840.10008.1.2")) (pathJoin pathname filename) false =
      Except.ok (fs2, none)) :
    addFileToBuffer env fs pathname filename (some DataFormat.rendered) =
      Except.error "TypeError: list argument must be an instance of Buffer" := by
  simp [addFileToBuffer, hread, hconv, bufferConcat, Except.map]

/-- Witness for the amended C8: the concrete absent-render transform
raises the concatenation TypeError. -/
theorem rendered_absent_raises_witness :
    addFileToBuffer envC8 fsC8 "/data/S8" "I1" (some DataFormat.rendered) =
      Except.error "TypeError: list argument must be an instance of Buffer" :=
  rendered_absent_raises envC8 fsC8 "/data/S8" "I1" [1] fsC8 rfl rfl

/-! ### C9: single-object hits never fetch -/

/-- Claim C9: when the target path exists on disk as a non-directory
file, the single-object branch always reports a cache hit and never
triggers a fetch; consequently a fetch can only be triggered when the
target path is a directory or does not exist at all. -/
theorem single_object_never_fetches :
    (∀ env args, (env.fs.files (pathnameOf env args)).isSome = true →
      env.fs.dirs (pathnameOf env args) = none →
      useCacheOf env args = true ∧ (doWadoRs env args).1 = [])
    ∧ (∀ env args, (doWadoRs env args).1 ≠ [] →
      (env.fs.dirs (pathnameOf env args)).isSome = true ∨
        fileExists env.fs (pathnameOf env args) = false) := by
  constructor
  · intro env args hfile hnotdir
    have hex : fileExists env.fs (pathnameOf env args) = true := by
      simp [fileExists, hfile]
    have hdir : isDirOf env args = false := by
      simp [isDirOf, hex, hnotdir]
    have huse : useCacheOf env args = true := by
      simp [useCacheOf, hdir, hex]
    exact ⟨huse, by simp [doWadoRs, fetchCallsOf, huse]⟩
  · intro env args hne
    by_contra hcon
    push_neg at hcon
    obtain ⟨hd, hf⟩ := hcon
    have hd' : (env.fs.dirs (pathnameOf env args)).isSome = false :=
      Bool.not_eq_true _ ▸ (by simpa using hd)
    have hf' : fileExists env.fs (pathnameOf env args) = true := by
      cases hfe : fileExists env.fs (pathnameOf env args)
      · exact absurd hfe hf
      · rfl
    have hdir : isDirOf env args = false := by
      simp [isDirOf, hf', hd']
    have huse : useCacheOf env args = true := by
      simp [useCacheOf, hdir, hf']
    exact hne (by simp [doWadoRs, fetchCallsOf, huse])

/-- Filesystem for the C9 witness: `/data/S9/I9` is a plain file. -/
def fsC9 : FS where
  files := fun p => if p = "/data/S9/I9" then some [4] else none
  dirs := fun p => if p = "/data/S9" then some ["I9"] else none

/-- Environment for the C9 witness. -/
def envC9 : Env where
  storagePath := "/data"
  mimetype := "application/dicom"
  xtransfer := "1.2.840.10008.1.2.1"
  fs := fsC9
  qido := [⟨some "I9"⟩]
  fetch := fun _ _ _ _ => fsC9
  compress := fun _ _ _ fs => ExecResult.ok fs
  dcmj2pnm := fun _ fs => ExecResult.ok fs
  parseDicom := fun _ => Except.error "not parsed"

/-- Instance-scoped request whose target `/data/S9/I9` is a file. -/
def argsC9 : WadoRsArgs := { studyInstanceUid := "S9", sopInstanceUid := some "I9" }

/-- Witness for C9: the concrete single-object request hits the cache
and makes no fetch call. -/
theorem single_object_never_fetches_witness :
    useCacheOf envC9 argsC9 = true ∧ (doWadoRs envC9 argsC9).1 = [] :=
  single_object_never_fetches.1 envC9 argsC9 (by decide) (by decide)

/-! ### C10: thumbnail target is the first expected instance -/

/-- Claim C10: on a directory-scope thumbnail request the render target
is the file named by the first recorded expected instance (not the
first directory entry); with an empty expected-instance list the
first-element lookup has no value, and the branch faults with a
TypeError before the renderer runs — it never reaches the
thumbnail-creation error path. -/
theorem thumbnail_target_first_expected (env : Env) (args : WadoRsArgs)
    (hdf : args.dataFormat = some DataFormat.thumbnail)
    (hdir : isDirOf env args = true) :
    (foundInstancesOf env args = [] →
      doWadoRsBody env args =
        Except.error "TypeError: path argument must be of type string" ∧
      doWadoRsBody env args ≠ Except.error "Failed to create thumbnail")
    ∧ (∀ x rest, foundInstancesOf env args = x :: rest →
      thumbTargetOf env args = some (pathJoin (pathnameOf env args) x)) := by
  constructor
  · intro hempty
    have htarget : thumbTargetOf env args = none := by
      simp [thumbTargetOf, hdir, hempty]
    have hbody : doWadoRsBody env args =
        Except.error "TypeError: path argument must be of type string" := by
      simp only [doWadoRsBody]
      rw [if_pos hdf, htarget]
    refine ⟨hbody, ?_⟩
    rw [hbody]
    intro h
    have := Except.error.inj h
    simp at this
  · intro x rest hfound
    simp [thumbTargetOf, hdir, hfound]

/-- Filesystem for the C10 witness: `/data/S10` exists as a directory
with one entry. -/
def fsC10 : FS where
  files := fun p => if p = "/data/S10/I1" then some [1] else none
  dirs := fun p => if p = "/data/S10" then some ["I1"] else none

/-- Environment for the C10 witness: the metadata query returned one
record without any SOPInstanceUID attribute, so the recorded
expected-instance list is empty. -/
def envC10 : Env where
  storagePath := "/data"
  mimetype := "application/dicom"
  xtransfer := "1.2.840.10008.1.2.1"
  fs := fsC10
  qido := [⟨none⟩]
  fetch := fun _ _ _ _ => fsC10
  compress := fun _ _ _ fs => ExecResult.ok fs
  dcmj2pnm := fun _ fs => ExecResult.ok fs
  parseDicom := fun _ => Except.error "not parsed"

/-- Thumbnail request for study `S10`. -/
def argsC10 : WadoRsArgs :=
  { studyInstanceUid := "S10", dataFormat := some DataFormat.thumbnail }

/-- Witness for C10: with an empty expected-instance list the concrete
thumbnail request faults with the path TypeError, not the
thumbnail-creation error. -/
theorem thumbnail_target_first_expected_witness :
    doWadoRsBody envC10 argsC10 =
      Except.error "TypeError: path argument must be of type string" ∧
    doWadoRsBody envC10 argsC10 ≠ Except.error "Failed to create thumbnail" :=
  (thumbnail_target_first_expected envC10 argsC10 rfl (by decide)).1 (by decide)

end WadoRs
